import Mathlib

/-!
Verification of the thick-walled-cylinder calculation engine
(Lamé solver, Von Mises evaluator, safety factors, burst-pressure
bisection, compound-cylinder superposition, tolerance worst-case layer).

Shallow embedding conventions:
* JavaScript numbers are modelled as exact rationals (`ℚ`) wherever the
  source performs only field arithmetic and comparisons; `Math.sqrt` and
  everything downstream of it is modelled over `ℝ` with `Real.sqrt`.
* A `throw new Error(msg)` is modelled as `Except.error` carrying a
  `CalcError` tagged with the spec error taxonomy and the source
  message text (interpolated values omitted).
* The `NaN` sentinel produced by the burst catch-all of the objective is
  modelled as `Option.none`.
-/



/-- Error taxonomy of the engine (spec section 7), carrying the source
human-readable message. -/
inductive CalcError where
  | invalidGeometry (msg : String)
  | invalidLoad (msg : String)
  | invalidMaterial (msg : String)
  | invalidStress (msg : String)
  | incompatibleGeometry (msg : String)
  | bracketingFailure (msg : String)
  | numericalError (msg : String)
  | convergenceFailure (msg : String)
  | negativeWallThickness (msg : String)
  deriving DecidableEq

/-- Result record of `lameCoefficients`. -/
structure LameCoeffs where
  A : ℚ
  B : ℚ
  deriving DecidableEq

/-- Result record of `stresses`: radial and hoop stress at a radius. -/
structure StressState where
  sigma_r : ℚ
  sigma_theta : ℚ
  deriving DecidableEq

/-- Embeds `lameCoefficients(ri, ro, p_i, p_o)` from `src/js/calc/core.js`:
validates `ri > 0`, `ro > ri`, `p_i ≥ 0`, `p_o ≥ 0`, then returns
`A = (p_i·ri² − p_o·ro²)/(ro² − ri²)` and
`B = (p_i − p_o)·ri²·ro²/(ro² − ri²)`. -/
def lameCoefficients (ri ro p_i p_o : ℚ) : Except CalcError LameCoeffs :=
  if ri ≤ 0 then
    .error (.invalidGeometry "Inner radius must be positive")
  else if ro ≤ ri then
    .error (.invalidGeometry "Outer radius must be greater than inner radius")
  else if p_i < 0 ∨ p_o < 0 then
    .error (.invalidLoad "Pressures must be non-negative")
  else
    let ri2 := ri * ri
    let ro2 := ro * ro
    let deltaR2 := ro2 - ri2
    .ok ⟨(p_i * ri2 - p_o * ro2) / deltaR2, (p_i - p_o) * ri2 * ro2 / deltaR2⟩

/-- Embeds `stresses(r, A, B)` from `src/js/calc/core.js`:
validates `r > 0`, then returns `σ_r = A − B/r²` and `σ_θ = A + B/r²`. -/
def stresses (r A B : ℚ) : Except CalcError StressState :=
  if r ≤ 0 then
    .error (.invalidGeometry "Radius must be positive")
  else
    let r2 := r * r
    .ok ⟨A - B / r2, A + B / r2⟩

/-- Embeds the radicand of `vonMises(sigma_r, sigma_theta, sigma_axial)`
from `src/js/calc/core.js` (the sum `term1 + term2 + term3 − term4 −
term5 − term6`). -/
noncomputable def vonMisesSq (sigma_r sigma_theta sigma_axial : ℝ) : ℝ :=
  sigma_theta * sigma_theta + sigma_r * sigma_r + sigma_axial * sigma_axial -
    sigma_theta * sigma_r - sigma_theta * sigma_axial - sigma_r * sigma_axial

/-- Embeds `vonMises(sigma_r, sigma_theta, sigma_axial = 0)` from
`src/js/calc/core.js`: the square root of the radicand. -/
noncomputable def vonMises (sigma_r sigma_theta sigma_axial : ℝ) : ℝ :=
  Real.sqrt (vonMisesSq sigma_r sigma_theta sigma_axial)

/-- Result record of `safetyFactors`; `⊤` models the JavaScript value
`Infinity`. -/
structure SafetyFactors where
  SF_y : WithTop ℝ
  SF_u : WithTop ℝ

/-- Embeds `safetyFactors(sigma_vm, Sy, Su)` from `src/js/calc/core.js`. -/
noncomputable def safetyFactors (sigma_vm Sy Su : ℝ) : Except CalcError SafetyFactors :=
  if Sy ≤ 0 ∨ Su ≤ 0 then
    .error (.invalidMaterial "Material strengths must be positive")
  else if Su < Sy then
    .error (.invalidMaterial "Ultimate strength must be greater than or equal to yield strength")
  else if sigma_vm < 0 then
    .error (.invalidStress "Von Mises stress must be non-negative")
  else if sigma_vm = 0 then
    .ok ⟨⊤, ⊤⟩
  else
    .ok ⟨((Sy / sigma_vm : ℝ) : WithTop ℝ), ((Su / sigma_vm : ℝ) : WithTop ℝ)⟩

/-- Truth of the JavaScript comparison `o < 0` where `o` may be the NaN
sentinel (modelled as `none`); a NaN comparison is false. -/
def optNeg : Option ℝ → Prop
  | none => False
  | some x => x < 0

noncomputable instance (o : Option ℝ) : Decidable (optNeg o) :=
  match o with
  | none => isFalse fun h => h
  | some x => inferInstanceAs (Decidable (x < 0))

/-- Truth of the JavaScript comparison `f_mid * f_low < 0` where `f_low`
may be the NaN sentinel (modelled as `none`); a NaN comparison is false. -/
def optProdNeg (f_mid : ℝ) : Option ℝ → Prop
  | none => False
  | some fl => f_mid * fl < 0

noncomputable instance (x : ℝ) (o : Option ℝ) : Decidable (optProdNeg x o) :=
  match o with
  | none => isFalse fun h => h
  | some fl => inferInstanceAs (Decidable (x * fl < 0))

/-- Embeds the local `objective(p_i)` of `burstPressureEstimate` in
`src/js/calc/core.js`: Von Mises stress at the inner radius minus the
yield strength, with any inner validation failure converted to the NaN
sentinel (`none`). -/
noncomputable def objective (ri ro Sy p_o p : ℚ) : Option ℝ :=
  match lameCoefficients ri ro p p_o with
  | .error _ => none
  | .ok c =>
    match stresses ri c.A c.B with
    | .error _ => none
    | .ok s => some (vonMises (s.sigma_r : ℝ) (s.sigma_theta : ℝ) 0 - (Sy : ℝ))

/-- Embeds the bound-expansion `while` loop of `burstPressureEstimate`
(`while (f_high < 0 && expansions < 20)`), with the fuel argument counting
the remaining allowed expansions. -/
noncomputable def expandLoop (f : ℚ → Option ℝ) : ℕ → ℚ → Option ℝ → ℚ × Option ℝ
  | 0, p_high, f_high => (p_high, f_high)
  | n + 1, p_high, f_high =>
    if optNeg f_high then expandLoop f n (p_high * 2) (f (p_high * 2))
    else (p_high, f_high)

/-- Embeds the bisection `for` loop of `burstPressureEstimate`, with the
fuel argument counting the remaining allowed iterations. -/
noncomputable def bisectLoop (f : ℚ → Option ℝ) (tol : ℚ) :
    ℕ → ℚ → ℚ → Option ℝ → Except CalcError ℚ
  | 0, _, _, _ =>
    .error (.convergenceFailure "Burst pressure calculation failed to converge")
  | n + 1, p_low, p_high, f_low =>
    let p_mid := (p_low + p_high) / 2
    match f p_mid with
    | none => .error (.numericalError "Numerical error in burst pressure calculation")
    | some f_mid =>
      if |f_mid| < (tol : ℝ) ∨ p_high - p_low < tol then .ok p_mid
      else if optProdNeg f_mid f_low then bisectLoop f tol n p_low p_mid f_low
      else bisectLoop f tol n p_mid p_high (some f_mid)

/-- Embeds `burstPressureEstimate(ri, ro, Sy, p_o, {maxIters, tolerance})`
from `src/js/calc/core.js`. -/
noncomputable def burstPressureEstimate (ri ro Sy p_o : ℚ) (maxIters : ℕ) (tol : ℚ) :
    Except CalcError ℚ :=
  if ri ≤ 0 then
    .error (.invalidGeometry "Inner radius must be positive")
  else if ro ≤ ri then
    .error (.invalidGeometry "Outer radius must be greater than inner radius")
  else if Sy ≤ 0 then
    .error (.invalidMaterial "Yield strength must be positive")
  else
    let f := objective ri ro Sy p_o
    let f_low := f 0
    let e := expandLoop f 20 (10 * Sy) (f (10 * Sy))
    if optNeg e.2 then
      .error (.bracketingFailure "Could not find upper bound for burst pressure")
    else bisectLoop f tol maxIters 0 e.1 f_low

/-- Modelled from the words of claim C3 (spec section 4.4, step 1): double
`p_high` up to 20 times while the objective at `p_high` is negative. -/
noncomputable def specExpandBracket (f : ℚ → Option ℝ) : ℕ → ℚ → Option ℝ → ℚ × Option ℝ
  | 0, p_high, f_high => (p_high, f_high)
  | n + 1, p_high, f_high =>
    if optNeg f_high then specExpandBracket f n (2 * p_high) (f (2 * p_high))
    else (p_high, f_high)

/-- Modelled from the words of claim C3 (spec section 4.4, step 2): take
the midpoint, fail with NumericalError on a non-finite objective value,
return the midpoint on `|f(p_mid)| < tol` or `(p_high − p_low) < tol`, and
otherwise narrow the bracket by the sign of `f(p_mid)·f(p_low)`; exhausted
iterations fail with ConvergenceFailure (step 3). -/
noncomputable def specBisection (f : ℚ → Option ℝ) (tol : ℚ) :
    ℕ → ℚ → ℚ → Option ℝ → Except CalcError ℚ
  | 0, _, _, _ =>
    .error (.convergenceFailure "Burst pressure calculation failed to converge")
  | n + 1, p_low, p_high, f_low =>
    match f ((p_low + p_high) / 2) with
    | none => .error (.numericalError "Numerical error in burst pressure calculation")
    | some f_mid =>
      if |f_mid| < (tol : ℝ) ∨ p_high - p_low < tol then .ok ((p_low + p_high) / 2)
      else if optProdNeg f_mid f_low then
        specBisection f tol n p_low ((p_low + p_high) / 2) f_low
      else specBisection f tol n ((p_low + p_high) / 2) p_high (some f_mid)

/-- Modelled from the words of claim C3: the full bracketing-then-bisection
algorithm starting from `p_low = 0`, `p_high = 10·Sy`, with BracketingFailure
when the objective at `p_high` is still negative after 20 expansions. -/
noncomputable def specBurstAlgorithm (ri ro Sy p_o : ℚ) (maxIters : ℕ) (tol : ℚ) :
    Except CalcError ℚ :=
  let f := objective ri ro Sy p_o
  let e := specExpandBracket f 20 (10 * Sy) (f (10 * Sy))
  if optNeg e.2 then
    .error (.bracketingFailure "Could not find upper bound for burst pressure")
  else specBisection f tol maxIters 0 e.1 (f 0)

/-- Counts the evaluations of the objective performed by the bound-expansion
loop of `burstPressureEstimate` (one per executed doubling). -/
noncomputable def expandLoopCount (f : ℚ → Option ℝ) : ℕ → ℚ → Option ℝ → ℕ
  | 0, _, _ => 0
  | n + 1, p_high, f_high =>
    if optNeg f_high then expandLoopCount f n (p_high * 2) (f (p_high * 2)) + 1
    else 0

/-- Counts the evaluations of the objective performed by the bisection loop
of `burstPressureEstimate` (one per entered iteration). -/
noncomputable def bisectLoopCount (f : ℚ → Option ℝ) (tol : ℚ) :
    ℕ → ℚ → ℚ → Option ℝ → ℕ
  | 0, _, _, _ => 0
  | n + 1, p_low, p_high, f_low =>
    let p_mid := (p_low + p_high) / 2
    match f p_mid with
    | none => 1
    | some f_mid =>
      if |f_mid| < (tol : ℝ) ∨ p_high - p_low < tol then 1
      else if optProdNeg f_mid f_low then bisectLoopCount f tol n p_low p_mid f_low + 1
      else bisectLoopCount f tol n p_mid p_high (some f_mid) + 1

/-- Counts the evaluations of the stress objective performed by one call of
`burstPressureEstimate`: the two initial bracket evaluations, one per
executed doubling, and one per entered bisection iteration; a call rejected
by input validation performs none. -/
noncomputable def burstEvalCount (ri ro Sy p_o : ℚ) (maxIters : ℕ) (tol : ℚ) : ℕ :=
  if ri ≤ 0 then 0
  else if ro ≤ ri then 0
  else if Sy ≤ 0 then 0
  else
    let f := objective ri ro Sy p_o
    let f_high := f (10 * Sy)
    let e := expandLoop f 20 (10 * Sy) f_high
    if optNeg e.2 then 2 + expandLoopCount f 20 (10 * Sy) f_high
    else 2 + expandLoopCount f 20 (10 * Sy) f_high + bisectLoopCount f tol maxIters 0 e.1 (f 0)

/-- Geometry and elastic constants of one cylinder of the compound
(barrel/trunnion) system. -/
structure ElasticCylinder where
  ri : ℚ
  ro : ℚ
  E : ℚ
  nu : ℚ

/-- The plane-strain compliance `(ro² + ri²) / (E·(ro² − ri²)) · (1 − nu²)`
of one cylinder, as computed inside `contactPressure`. -/
def compliance (ri ro E nu : ℚ) : ℚ :=
  (ro * ro + ri * ri) / (E * (ro * ro - ri * ri)) * (1 - nu * nu)

/-- Embeds `contactPressure(barrel, trunnion, interference)` from the
trunnion analysis module (`src/unnamed/part_000`). -/
def contactPressure (barrel trunnion : ElasticCylinder) (interference : ℚ) :
    Except CalcError ℚ :=
  if barrel.ri ≤ 0 then
    .error (.invalidGeometry "Barrel inner radius must be positive")
  else if barrel.ro ≤ barrel.ri then
    .error (.invalidGeometry "Barrel outer radius must be greater than inner radius")
  else if trunnion.ro ≤ trunnion.ri then
    .error (.invalidGeometry "Trunnion outer radius must be greater than inner radius")
  else if barrel.E ≤ 0 ∨ trunnion.E ≤ 0 then
    .error (.invalidMaterial "Elastic modulus must be positive")
  else if barrel.nu < 0 ∨ 1 / 2 ≤ barrel.nu ∨ trunnion.nu < 0 ∨ 1 / 2 ≤ trunnion.nu then
    .error (.invalidMaterial "Poissons ratio must be between 0 and 0.5")
  else if interference < 0 then
    .error (.invalidLoad "Interference must be non-negative")
  else if 1 / 1000000 < |trunnion.ri - (barrel.ro - interference)| then
    .error (.incompatibleGeometry
      "Trunnion inner radius must equal barrel outer radius minus interference")
  else if interference = 0 then
    .ok 0
  else
    let C_barrel := compliance barrel.ri barrel.ro barrel.E barrel.nu
    let C_trunnion := compliance trunnion.ri trunnion.ro trunnion.E trunnion.nu
    .ok (interference / (C_barrel + C_trunnion))

/-- Embeds `validateGeometry(barrel, trunnion, interference)` from the
trunnion analysis module (`src/unnamed/part_000`); the `console.warn` for
large interference has no effect on the return value and is not modelled. -/
def validateGeometry (barrel trunnion : ElasticCylinder) (interference : ℚ) :
    Except CalcError Bool :=
  if barrel.ri ≤ 0 then
    .error (.invalidGeometry "Barrel inner radius must be positive")
  else if barrel.ro ≤ barrel.ri then
    .error (.invalidGeometry "Barrel outer radius must be greater than inner radius")
  else if trunnion.ri ≤ 0 then
    .error (.invalidGeometry "Trunnion inner radius must be positive")
  else if trunnion.ro ≤ trunnion.ri then
    .error (.invalidGeometry "Trunnion outer radius must be greater than inner radius")
  else if interference < 0 then
    .error (.invalidGeometry "Interference must be non-negative")
  else if 1 / 1000000 < |trunnion.ri - (barrel.ro - interference)| then
    .error (.incompatibleGeometry
      "Geometry incompatible: trunnion inner radius must equal barrel outer radius minus interference")
  else
    .ok true

/-- Embeds the barrel half of `calculatePreloadStresses`: the barrel sees
the contact pressure as external pressure. -/
def calculatePreloadBarrel (b : ElasticCylinder) (p_c : ℚ) : Except CalcError LameCoeffs :=
  lameCoefficients b.ri b.ro 0 p_c

/-- Embeds the trunnion half of `calculatePreloadStresses`: the trunnion
sees the contact pressure as internal pressure. -/
def calculatePreloadTrunnion (t : ElasticCylinder) (p_c : ℚ) : Except CalcError LameCoeffs :=
  lameCoefficients t.ri t.ro p_c 0

/-- Embeds the barrel half of `calculateOperatingStresses`. -/
def calculateOperatingBarrel (b : ElasticCylinder) (opP extP : ℚ) : Except CalcError LameCoeffs :=
  lameCoefficients b.ri b.ro opP extP

/-- Embeds the trunnion half of `calculateOperatingStresses`: the trunnion
sees only the external pressure. -/
def calculateOperatingTrunnion (t : ElasticCylinder) (extP : ℚ) : Except CalcError LameCoeffs :=
  lameCoefficients t.ri t.ro extP extP

/-- Embeds one body `getStresses` closure of `superimposeStresses`:
componentwise sum of the preload and operating stress at the same radius. -/
def superimposedStresses (pre op : LameCoeffs) (r : ℚ) : Except CalcError StressState := do
  let s1 ← stresses r pre.A pre.B
  let s2 ← stresses r op.A op.B
  pure ⟨s1.sigma_r + s2.sigma_r, s1.sigma_theta + s2.sigma_theta⟩

/-- One entry of `analyzeCriticalLocations`: the stress state, its Von
Mises stress, and the safety factors there. -/
structure LocationAnalysis where
  state : StressState
  sigma_vm : ℝ
  sf : SafetyFactors

/-- Embeds the loop body of `analyzeCriticalLocations` for one location. -/
noncomputable def analyzeLocation (s : StressState) (Sy Su sigma_axial : ℚ) :
    Except CalcError LocationAnalysis := do
  let sf ← safetyFactors (vonMises (s.sigma_r : ℝ) (s.sigma_theta : ℝ) (sigma_axial : ℝ))
    (Sy : ℝ) (Su : ℝ)
  pure ⟨s, vonMises (s.sigma_r : ℝ) (s.sigma_theta : ℝ) (sigma_axial : ℝ), sf⟩

/-- Result record of `analyzeCompoundCylinder`: contact pressure, the four
Lamé coefficient pairs, the two combined stress-field closures, the
interface radius, and the four critical-location analyses. -/
structure CompoundAnalysis where
  p_contact : ℚ
  barrelPreload : LameCoeffs
  trunnionPreload : LameCoeffs
  barrelOperating : LameCoeffs
  trunnionOperating : LameCoeffs
  barrelCombined : ℚ → Except CalcError StressState
  trunnionCombined : ℚ → Except CalcError StressState
  interfaceRadius : ℚ
  barrelInner : LocationAnalysis
  barrelInterface : LocationAnalysis
  trunnionInterface : LocationAnalysis
  trunnionOuter : LocationAnalysis

/-- Embeds `analyzeCompoundCylinder(params)` from the trunnion analysis
module: contact pressure, preload and operating Lamé solutions for both
bodies, superposition closures (with the interface at `barrel.ro`), and
the four critical-location evaluations at `0.999·`, `1·` and `1.5·` the
interface radius. -/
noncomputable def analyzeCompoundCylinder (b t : ElasticCylinder)
    (interference opP extP Sy Su sigma_axial : ℚ) : Except CalcError CompoundAnalysis := do
  let p_c ← contactPressure b t interference
  let bPre ← calculatePreloadBarrel b p_c
  let tPre ← calculatePreloadTrunnion t p_c
  let bOp ← calculateOperatingBarrel b opP extP
  let tOp ← calculateOperatingTrunnion t extP
  let sBI ← superimposedStresses bPre bOp (b.ro * (999 / 1000))
  let aBI ← analyzeLocation sBI Sy Su sigma_axial
  let sBF ← superimposedStresses bPre bOp b.ro
  let aBF ← analyzeLocation sBF Sy Su sigma_axial
  let sTI ← superimposedStresses tPre tOp b.ro
  let aTI ← analyzeLocation sTI Sy Su sigma_axial
  let sTO ← superimposedStresses tPre tOp (b.ro * (3 / 2))
  let aTO ← analyzeLocation sTO Sy Su sigma_axial
  pure ⟨p_c, bPre, tPre, bOp, tOp, superimposedStresses bPre bOp,
    superimposedStresses tPre tOp, b.ro, aBI, aBF, aTI, aTO⟩

/-- The hoop stress at the inner radius obtained by composing the source
Lamé coefficient formulas with `stresses` at `r = ri` (used to state
evaluation lemmas about the analysis pipeline). -/
def innerHoop (ri ro p_i p_o : ℚ) : ℚ :=
  (p_i * (ri * ri) - p_o * (ro * ro)) / (ro * ro - ri * ri) +
    (p_i - p_o) * (ri * ri) * (ro * ro) / (ro * ro - ri * ri) / (ri * ri)

/-- User-entered custom tolerance input of `getCustomTolerances`
(micrometres). -/
structure CustomTolerances where
  bore_plus : ℚ
  bore_minus : ℚ
  shaft_plus : ℚ
  shaft_minus : ℚ

/-- The upper/lower bore and shaft offsets (micrometres) of a tolerance
specification as consumed by `calculateWorstCaseDimensions`; the
`tolerance` totals and fit-class labels of the source records carry no
further information used by the analysis and are not modelled. -/
structure ToleranceSpec where
  boreUpper : ℚ
  boreLower : ℚ
  shaftUpper : ℚ
  shaftLower : ℚ

/-- Embeds `getCustomTolerances(customTolerances)` from
`src/js/calc/tolerance.js`: upper offsets are taken as given, lower
offsets as `−|·|`. -/
def getCustomTolerances (c : CustomTolerances) : ToleranceSpec :=
  ⟨c.bore_plus, -|c.bore_minus|, c.shaft_plus, -|c.shaft_minus|⟩

/-- One geometry case (nominal, worst or best) of
`calculateWorstCaseDimensions` (millimetres). -/
structure CaseDims where
  innerRadius : ℚ
  outerRadius : ℚ
  wallThickness : ℚ

/-- Result record of `calculateWorstCaseDimensions`; the redundant
`wallThicknessVariation` summary of the source is not modelled. -/
structure WorstCaseDims where
  worstCase : CaseDims
  bestCase : CaseDims
  nominal : CaseDims

/-- Embeds `calculateWorstCaseDimensions(nominalInnerRadius,
nominalOuterRadius, tolerances)` from `src/js/calc/tolerance.js`:
worst case is maximum bore and minimum shaft, best case the opposite;
tolerances are converted from μm to mm. -/
def calculateWorstCaseDimensions (nri nro : ℚ) (t : ToleranceSpec) :
    Except CalcError WorstCaseDims :=
  let wIn := nri + t.boreUpper / 1000
  let wOut := nro + t.shaftLower / 1000
  let bIn := nri + t.boreLower / 1000
  let bOut := nro + t.shaftUpper / 1000
  if wOut ≤ wIn then
    .error (.negativeWallThickness "Worst-case tolerances result in negative wall thickness")
  else
    .ok ⟨⟨wIn, wOut, wOut - wIn⟩, ⟨bIn, bOut, bOut - bIn⟩, ⟨nri, nro, nro - nri⟩⟩

/-- Result record of `applyPressureTolerance`. -/
structure PressureVariations where
  nominal : ℚ
  tolerance : ℚ
  worstCase : ℚ
  bestCase : ℚ
  variation : ℚ

/-- Embeds `applyPressureTolerance(nominalPressure, toleranceLevel)` from
`src/js/calc/tolerance.js`, with the externally fetched tolerance factor
(an out-of-scope JSON lookup) passed as a parameter. -/
def applyPressureTolerance (p factor : ℚ) : PressureVariations :=
  ⟨p, factor, p + p * factor, p - p * factor, p * factor⟩

/-- Result record of `analyzeCircle` from `src/js/calc/core.js`. -/
structure CircleAnalysis where
  coeffs : LameCoeffs
  inner : StressState
  outer : StressState
  sigma_vm_inner : ℝ
  sigma_vm_outer : ℝ
  SF_y : WithTop ℝ
  SF_u : WithTop ℝ
  burstPressure : ℚ

/-- Embeds `analyzeCircle(params)` from `src/js/calc/core.js`: Lamé
coefficients, stresses and Von Mises stress at the inner and outer radii,
safety factors at the inner radius, and the burst pressure estimate with
its default options. -/
noncomputable def analyzeCircle (ri ro p_i p_o Sy Su sigma_axial : ℚ) :
    Except CalcError CircleAnalysis := do
  let c ← lameCoefficients ri ro p_i p_o
  let sInner ← stresses ri c.A c.B
  let sOuter ← stresses ro c.A c.B
  let sf ← safetyFactors (vonMises (sInner.sigma_r : ℝ) (sInner.sigma_theta : ℝ) (sigma_axial : ℝ))
    (Sy : ℝ) (Su : ℝ)
  let burst ← burstPressureEstimate ri ro Sy p_o 100 (1 / 1000000000)
  pure ⟨c, sInner, sOuter,
    vonMises (sInner.sigma_r : ℝ) (sInner.sigma_theta : ℝ) (sigma_axial : ℝ),
    vonMises (sOuter.sigma_r : ℝ) (sOuter.sigma_theta : ℝ) (sigma_axial : ℝ),
    sf.SF_y, sf.SF_u, burst⟩

/-- Result record of `performWorstCaseAnalysis`; the derived
`safetyFactorMargin` ratios and `summary` percentages of the source (pure
arithmetic over the values below) are not modelled. -/
structure WCAResult where
  tolerances : ToleranceSpec
  dimensions : WorstCaseDims
  pressureVariations : PressureVariations
  nominalAnalysis : CircleAnalysis
  worstCaseAnalysis : CircleAnalysis
  bestCaseAnalysis : CircleAnalysis

/-- Embeds the custom tolerance-class path of
`performWorstCaseAnalysis(params)` from `src/js/calc/tolerance.js` (the
ISO 286 / ANSI B4.2 paths differ only in consulting the out-of-scope
tolerance-table provider): worst-case dimensions, pressure variations, and
the full single-cylinder analysis for the nominal, worst and best cases. -/
noncomputable def performWorstCaseAnalysis (nri nro p_nom : ℚ) (custom : CustomTolerances)
    (pressureFactor Sy Su extP ax : ℚ) : Except CalcError WCAResult := do
  let t := getCustomTolerances custom
  let dims ← calculateWorstCaseDimensions nri nro t
  let pv := applyPressureTolerance p_nom pressureFactor
  let nominal ← analyzeCircle dims.nominal.innerRadius dims.nominal.outerRadius
    pv.nominal extP Sy Su ax
  let worst ← analyzeCircle dims.worstCase.innerRadius dims.worstCase.outerRadius
    pv.worstCase extP Sy Su ax
  let best ← analyzeCircle dims.bestCase.innerRadius dims.bestCase.outerRadius
    pv.bestCase extP Sy Su ax
  pure ⟨t, dims, pv, nominal, worst, best⟩

lemma lame_pipeline_boundary (ri ro p_i p_o : ℚ)
    (h1 : 0 < ri) (h2 : ri < ro) (h3 : 0 ≤ p_i) (h4 : 0 ≤ p_o) :
    ∃ c si so, lameCoefficients ri ro p_i p_o = .ok c ∧
      stresses ri c.A c.B = .ok si ∧ stresses ro c.A c.B = .ok so ∧
      si.sigma_r = -p_i ∧ so.sigma_r = -p_o := by
  have hri : ¬ ri ≤ 0 := not_le.mpr h1
  have hro : ¬ ro ≤ ri := not_le.mpr h2
  have hp : ¬ (p_i < 0 ∨ p_o < 0) := by
    push_neg
    exact ⟨h3, h4⟩
  have hro0 : 0 < ro := lt_trans h1 h2
  have hd : ro * ro - ri * ri ≠ 0 := by nlinarith
  have hri2 : ri * ri ≠ 0 := by positivity
  have hro2 : ro * ro ≠ 0 := by positivity
  set A := (p_i * (ri * ri) - p_o * (ro * ro)) / (ro * ro - ri * ri) with hA
  set B := (p_i - p_o) * (ri * ri) * (ro * ro) / (ro * ro - ri * ri) with hB
  refine ⟨⟨A, B⟩, ⟨A - B / (ri * ri), A + B / (ri * ri)⟩,
    ⟨A - B / (ro * ro), A + B / (ro * ro)⟩, ?_, ?_, ?_, ?_, ?_⟩
  · simp only [lameCoefficients, if_neg hri, if_neg hro, if_neg hp]
  · simp only [stresses, if_neg hri]
  · simp only [stresses, if_neg (not_le.mpr hro0)]
  · show A - B / (ri * ri) = -p_i
    rw [hA, hB]
    field_simp
    ring
  · show A - B / (ro * ro) = -p_o
    rw [hA, hB]
    field_simp
    ring

/-- C1: for every valid geometry and load, the Lamé pipeline satisfies the
analytic boundary conditions exactly (hence in particular to within 1e-6):
the radial stress at the inner radius is `−p_i` and at the outer radius is
`−p_o`. -/
theorem lame_boundary_conditions (ri ro p_i p_o : ℚ)
    (h1 : 0 < ri) (h2 : ri < ro) (h3 : 0 ≤ p_i) (h4 : 0 ≤ p_o) :
    ∃ c si so, lameCoefficients ri ro p_i p_o = .ok c ∧
      stresses ri c.A c.B = .ok si ∧ stresses ro c.A c.B = .ok so ∧
      si.sigma_r = -p_i ∧ so.sigma_r = -p_o :=
  lame_pipeline_boundary ri ro p_i p_o h1 h2 h3 h4

/-- Witness for C1 at the concrete input ri=25, ro=50, p_i=100, p_o=0. -/
theorem lame_boundary_conditions_witness :
    ∃ c si so, lameCoefficients 25 50 100 0 = .ok c ∧
      stresses 25 c.A c.B = .ok si ∧ stresses 50 c.A c.B = .ok so ∧
      si.sigma_r = -100 ∧ so.sigma_r = -0 :=
  lame_boundary_conditions 25 50 100 0 (by decide) (by decide) (by decide) (by decide)

/-- C2 counterexample: on the concrete input ri=25, ro=50, p_i=100, p_o=0 the
pipeline computes B = 250000/3 ≈ 83333.3, not ≈ 41666.7 (it is off by more
than 1000), and the outer hoop stress is 200/3 ≈ 66.67, not ≈ 33.33 (off by
more than 1). -/
theorem scenarioA_counterexample :
    ∃ c so, lameCoefficients 25 50 100 0 = .ok c ∧ stresses 50 c.A c.B = .ok so ∧
      ¬(|c.B - 416667 / 10| ≤ 1000) ∧ ¬(|so.sigma_theta - 3333 / 100| ≤ 1) := by
  refine ⟨⟨100 / 3, 250000 / 3⟩, ⟨0, 200 / 3⟩, ?_, ?_, ?_, ?_⟩
  · norm_num [lameCoefficients]
  · norm_num [stresses]
  · norm_num [abs_le]
  · norm_num [abs_le]

/-- C2 amended: on the concrete input ri=25, ro=50, p_i=100, p_o=0 the
pipeline yields exactly A = 100/3 ≈ 33.33, B = 250000/3 ≈ 83333.3, inner
stresses σ_r = −100 and σ_θ = 500/3 ≈ 166.67, and outer stresses σ_r = 0
and σ_θ = 200/3 ≈ 66.67. -/
theorem scenarioA_exact :
    lameCoefficients 25 50 100 0 = .ok ⟨100 / 3, 250000 / 3⟩ ∧
    stresses 25 (100 / 3) (250000 / 3) = .ok ⟨-100, 500 / 3⟩ ∧
    stresses 50 (100 / 3) (250000 / 3) = .ok ⟨0, 200 / 3⟩ := by
  refine ⟨?_, ?_, ?_⟩
  · norm_num [lameCoefficients]
  · norm_num [stresses]
  · norm_num [stresses]

/-- C7: the Von Mises radicand is non-negative for every triple of real
inputs (a positive semi-definite quadratic form), so `vonMises` is a total
non-negative real function, and `vonMises 0 100 0 = 100` exactly. -/
theorem vonMises_total_psd :
    (∀ sr st sa : ℝ, 0 ≤ vonMisesSq sr st sa) ∧
    (∀ sr st sa : ℝ, 0 ≤ vonMises sr st sa) ∧
    vonMises 0 100 0 = 100 := by
  refine ⟨?_, ?_, ?_⟩
  · intro sr st sa
    unfold vonMisesSq
    nlinarith [sq_nonneg (sr - st), sq_nonneg (st - sa), sq_nonneg (sr - sa)]
  · intro sr st sa
    exact Real.sqrt_nonneg _
  · have h : vonMisesSq 0 100 0 = 10000 := by norm_num [vonMisesSq]
    show Real.sqrt (vonMisesSq 0 100 0) = 100
    rw [h, show (10000 : ℝ) = 100 ^ 2 by norm_num]
    exact Real.sqrt_sq (by norm_num)

/-- C6: `safetyFactors` fails with InvalidMaterial when `Sy ≤ 0`, `Su ≤ 0`
or `Su < Sy`, fails with InvalidStress when the stress is negative, and for
valid inputs returns both factors `+∞` exactly when `sigma_vm = 0` and
exactly `Sy/sigma_vm`, `Su/sigma_vm` otherwise. -/
theorem safetyFactors_spec (sigma_vm Sy Su : ℝ) :
    ((Sy ≤ 0 ∨ Su ≤ 0 ∨ Su < Sy) →
      ∃ m, safetyFactors sigma_vm Sy Su = .error (.invalidMaterial m)) ∧
    (0 < Sy → 0 < Su → Sy ≤ Su → sigma_vm < 0 →
      ∃ m, safetyFactors sigma_vm Sy Su = .error (.invalidStress m)) ∧
    (0 < Sy → 0 < Su → Sy ≤ Su → sigma_vm = 0 →
      safetyFactors sigma_vm Sy Su = .ok ⟨⊤, ⊤⟩) ∧
    (0 < Sy → 0 < Su → Sy ≤ Su → 0 ≤ sigma_vm → sigma_vm ≠ 0 →
      safetyFactors sigma_vm Sy Su =
        .ok ⟨((Sy / sigma_vm : ℝ) : WithTop ℝ), ((Su / sigma_vm : ℝ) : WithTop ℝ)⟩) := by
  refine ⟨?_, ?_, ?_, ?_⟩
  · intro h
    by_cases h1 : Sy ≤ 0 ∨ Su ≤ 0
    · exact ⟨_, by rw [safetyFactors, if_pos h1]⟩
    · have h2 : Su < Sy := by
        push_neg at h1
        rcases h with h | h | h
        · exact absurd h (not_le.mpr h1.1)
        · exact absurd h (not_le.mpr h1.2)
        · exact h
      exact ⟨_, by rw [safetyFactors, if_neg h1, if_pos h2]⟩
  · intro hSy hSu hyu hvm
    have h1 : ¬(Sy ≤ 0 ∨ Su ≤ 0) := by
      push_neg
      exact ⟨hSy, hSu⟩
    exact ⟨_, by rw [safetyFactors, if_neg h1, if_neg (not_lt.mpr hyu), if_pos hvm]⟩
  · intro hSy hSu hyu hvm
    have h1 : ¬(Sy ≤ 0 ∨ Su ≤ 0) := by
      push_neg
      exact ⟨hSy, hSu⟩
    rw [safetyFactors, if_neg h1, if_neg (not_lt.mpr hyu),
      if_neg (not_lt.mpr (le_of_eq hvm.symm)), if_pos hvm]
  · intro hSy hSu hyu hvm hvm0
    have h1 : ¬(Sy ≤ 0 ∨ Su ≤ 0) := by
      push_neg
      exact ⟨hSy, hSu⟩
    rw [safetyFactors, if_neg h1, if_neg (not_lt.mpr hyu),
      if_neg (not_lt.mpr hvm), if_neg hvm0]

/-- Witness for C6 at sigma_vm = 0, Sy = 1, Su = 2: both factors are +∞. -/
theorem safetyFactors_spec_witness :
    safetyFactors 0 1 2 = .ok ⟨⊤, ⊤⟩ :=
  (safetyFactors_spec 0 1 2).2.2.1 zero_lt_one zero_lt_two one_le_two rfl

lemma expandLoop_eq_spec (f : ℚ → Option ℝ) :
    ∀ (n : ℕ) (p : ℚ) (fh : Option ℝ), expandLoop f n p fh = specExpandBracket f n p fh := by
  intro n
  induction n with
  | zero => intro p fh; rfl
  | succ n ih =>
    intro p fh
    rw [expandLoop, specExpandBracket]
    by_cases h : optNeg fh
    · rw [if_pos h, if_pos h, mul_comm, ih]
    · rw [if_neg h, if_neg h]

lemma bisectLoop_eq_spec (f : ℚ → Option ℝ) (tol : ℚ) :
    ∀ (n : ℕ) (a b : ℚ) (fl : Option ℝ), bisectLoop f tol n a b fl = specBisection f tol n a b fl := by
  intro n
  induction n with
  | zero => intro a b fl; rfl
  | succ n ih =>
    intro a b fl
    rw [bisectLoop, specBisection]
    cases h : f ((a + b) / 2) with
    | none => rfl
    | some f_mid =>
      dsimp only
      by_cases hc : |f_mid| < (tol : ℝ) ∨ b - a < tol
      · rw [if_pos hc, if_pos hc]
      · by_cases hs : optProdNeg f_mid fl
        · rw [if_neg hc, if_neg hc, if_pos hs, if_pos hs, ih]
        · rw [if_neg hc, if_neg hc, if_neg hs, if_neg hs, ih]

/-- C3: for every valid input, `burstPressureEstimate` computes exactly the
algorithm described by the spec: bracket from `p_low = 0`, `p_high = 10·Sy`
with up to 20 doublings and BracketingFailure when the objective stays
negative, then at most `maxIters` bisection steps with NumericalError on a
non-finite midpoint value, success on `|f(p_mid)| < tol` or bracket width
`< tol`, sign-based narrowing, and ConvergenceFailure on exhaustion. -/
theorem burst_follows_spec_algorithm (ri ro Sy p_o : ℚ) (maxIters : ℕ) (tol : ℚ)
    (h1 : 0 < ri) (h2 : ri < ro) (h3 : 0 < Sy) (h4 : 0 ≤ p_o) :
    burstPressureEstimate ri ro Sy p_o maxIters tol =
      specBurstAlgorithm ri ro Sy p_o maxIters tol := by
  rw [burstPressureEstimate, if_neg (not_le.mpr h1), if_neg (not_le.mpr h2),
    if_neg (not_le.mpr h3), specBurstAlgorithm]
  simp only [expandLoop_eq_spec, bisectLoop_eq_spec]

/-- Witness for C3 at the concrete input ri=1, ro=2, Sy=100, p_o=0 with the
default iteration cap and a tolerance of 1. -/
theorem burst_follows_spec_algorithm_witness :
    burstPressureEstimate 1 2 100 0 100 1 = specBurstAlgorithm 1 2 100 0 100 1 :=
  burst_follows_spec_algorithm 1 2 100 0 100 1 (by decide) (by decide) (by decide) (by decide)

lemma objective_eval (ri ro Sy p_o p : ℚ) (h1 : 0 < ri) (h2 : ri < ro)
    (h4 : 0 ≤ p_o) (hp : 0 ≤ p) :
    ∃ st : ℚ, objective ri ro Sy p_o p =
      some (Real.sqrt (vonMisesSq ((-p : ℚ) : ℝ) (st : ℝ) 0) - (Sy : ℝ)) := by
  obtain ⟨c, si, so, hc, hsi, hso, hsr, hsro⟩ :=
    lame_pipeline_boundary ri ro p p_o h1 h2 hp h4
  refine ⟨si.sigma_theta, ?_⟩
  simp only [objective, hc, hsi, vonMises]
  rw [hsr]

lemma objective_at_ten_nonneg (ri ro Sy p_o : ℚ) (h1 : 0 < ri) (h2 : ri < ro)
    (h3 : 0 < Sy) (h4 : 0 ≤ p_o) :
    ∃ v, objective ri ro Sy p_o (10 * Sy) = some v ∧ 0 ≤ v := by
  obtain ⟨st, hobj⟩ := objective_eval ri ro Sy p_o (10 * Sy) h1 h2 h4 (by positivity)
  refine ⟨_, hobj, ?_⟩
  have hy : (0 : ℝ) ≤ (Sy : ℝ) := by exact_mod_cast le_of_lt h3
  have hrad : ((Sy : ℝ)) ^ 2 ≤ vonMisesSq ((-(10 * Sy) : ℚ) : ℝ) ((st : ℝ)) 0 := by
    rw [vonMisesSq]
    push_cast
    nlinarith [sq_nonneg ((st : ℝ) + 5 * (Sy : ℝ)), sq_nonneg (Sy : ℝ)]
  have hsq : (Sy : ℝ) ≤ Real.sqrt (vonMisesSq ((-(10 * Sy) : ℚ) : ℝ) (st : ℝ) 0) := by
    have hle := Real.sqrt_le_sqrt hrad
    rwa [Real.sqrt_sq hy] at hle
  linarith

lemma not_optNeg_objective_ten (ri ro Sy p_o : ℚ) (h1 : 0 < ri) (h2 : ri < ro)
    (h3 : 0 < Sy) : ¬ optNeg (objective ri ro Sy p_o (10 * Sy)) := by
  by_cases h4 : 0 ≤ p_o
  · obtain ⟨v, hv, hv0⟩ := objective_at_ten_nonneg ri ro Sy p_o h1 h2 h3 h4
    rw [hv]
    exact not_lt.mpr hv0
  · have hlame : lameCoefficients ri ro (10 * Sy) p_o =
        .error (.invalidLoad "Pressures must be non-negative") := by
      rw [lameCoefficients, if_neg (not_le.mpr h1), if_neg (not_le.mpr h2),
        if_pos (Or.inr (not_le.mp h4))]
    simp only [objective, hlame]
    exact fun h => h

lemma expandLoop_of_not_neg (f : ℚ → Option ℝ) (n : ℕ) (p : ℚ) (fh : Option ℝ)
    (h : ¬ optNeg fh) : expandLoop f n p fh = (p, fh) := by
  cases n with
  | zero => rfl
  | succ n => rw [expandLoop, if_neg h]

lemma expandLoopCount_of_not_neg (f : ℚ → Option ℝ) (n : ℕ) (p : ℚ) (fh : Option ℝ)
    (h : ¬ optNeg fh) : expandLoopCount f n p fh = 0 := by
  cases n with
  | zero => rfl
  | succ n => rw [expandLoopCount, if_neg h]

lemma bisectLoopCount_le (f : ℚ → Option ℝ) (tol : ℚ) :
    ∀ (n : ℕ) (a b : ℚ) (fl : Option ℝ), bisectLoopCount f tol n a b fl ≤ n := by
  intro n
  induction n with
  | zero => intro a b fl; exact le_refl 0
  | succ n ih =>
    intro a b fl
    rw [bisectLoopCount]
    cases h : f ((a + b) / 2) with
    | none => dsimp only; omega
    | some f_mid =>
      dsimp only
      by_cases hc : |f_mid| < (tol : ℝ) ∨ b - a < tol
      · rw [if_pos hc]; omega
      · rw [if_neg hc]
        by_cases hs : optProdNeg f_mid fl
        · rw [if_pos hs]
          have := ih a ((a + b) / 2) fl
          omega
        · rw [if_neg hs]
          have := ih ((a + b) / 2) b (some f_mid)
          omega

/-- C9: with the default iteration cap of 100, every call of
`burstPressureEstimate` evaluates the stress objective (the
lameCoefficients/stresses/vonMises pipeline) at most 120 times — in fact at
most 102 times, because the bound expansion never executes: the objective
at `p_high = 10·Sy` is never negative. -/
theorem burst_eval_count_bound (ri ro Sy p_o tol : ℚ) :
    burstEvalCount ri ro Sy p_o 100 tol ≤ 120 := by
  rw [burstEvalCount]
  by_cases ha : ri ≤ 0
  · rw [if_pos ha]; omega
  rw [if_neg ha]
  by_cases hb : ro ≤ ri
  · rw [if_pos hb]; omega
  rw [if_neg hb]
  by_cases hcs : Sy ≤ 0
  · rw [if_pos hcs]; omega
  rw [if_neg hcs]
  have h1 : 0 < ri := not_le.mp ha
  have h2 : ri < ro := not_le.mp hb
  have h3 : 0 < Sy := not_le.mp hcs
  have hne := not_optNeg_objective_ten ri ro Sy p_o h1 h2 h3
  have hexp := expandLoop_of_not_neg (objective ri ro Sy p_o) 20 (10 * Sy)
    (objective ri ro Sy p_o (10 * Sy)) hne
  have hexpc := expandLoopCount_of_not_neg (objective ri ro Sy p_o) 20 (10 * Sy)
    (objective ri ro Sy p_o (10 * Sy)) hne
  simp only [hexp, hexpc]
  rw [if_neg hne]
  have hbc := bisectLoopCount_le (objective ri ro Sy p_o) tol 100 0 (10 * Sy)
    (objective ri ro Sy p_o 0)
  omega

/-- C4: under the basic input validations, `contactPressure` fails with
IncompatibleGeometry exactly on |trunnion.ri − (barrel.ro − interference)|
exceeding 1e-6; otherwise it returns exactly 0 for zero interference and
`interference / (C_barrel + C_trunnion)` with the plane-strain compliances
otherwise. -/
theorem contactPressure_spec (b t : ElasticCylinder) (δ : ℚ)
    (hb1 : 0 < b.ri) (hb2 : b.ri < b.ro) (ht2 : t.ri < t.ro)
    (hbe : 0 < b.E) (hte : 0 < t.E)
    (hbn1 : 0 ≤ b.nu) (hbn2 : b.nu < 1 / 2) (htn1 : 0 ≤ t.nu) (htn2 : t.nu < 1 / 2)
    (hd : 0 ≤ δ) :
    (1 / 1000000 < |t.ri - (b.ro - δ)| →
      ∃ m, contactPressure b t δ = .error (.incompatibleGeometry m)) ∧
    (|t.ri - (b.ro - δ)| ≤ 1 / 1000000 →
      (δ = 0 → contactPressure b t δ = .ok 0) ∧
      (δ ≠ 0 → contactPressure b t δ =
        .ok (δ / (compliance b.ri b.ro b.E b.nu + compliance t.ri t.ro t.E t.nu)))) := by
  have h1 : ¬ b.ri ≤ 0 := not_le.mpr hb1
  have h2 : ¬ b.ro ≤ b.ri := not_le.mpr hb2
  have h3 : ¬ t.ro ≤ t.ri := not_le.mpr ht2
  have h4 : ¬ (b.E ≤ 0 ∨ t.E ≤ 0) := by
    push_neg
    exact ⟨hbe, hte⟩
  have h5 : ¬ (b.nu < 0 ∨ 1 / 2 ≤ b.nu ∨ t.nu < 0 ∨ 1 / 2 ≤ t.nu) := by
    push_neg
    exact ⟨hbn1, hbn2, htn1, htn2⟩
  have h6 : ¬ δ < 0 := not_lt.mpr hd
  constructor
  · intro hcomp
    exact ⟨_, by rw [contactPressure, if_neg h1, if_neg h2, if_neg h3, if_neg h4,
      if_neg h5, if_neg h6, if_pos hcomp]⟩
  · intro hcomp
    have h7 : ¬ 1 / 1000000 < |t.ri - (b.ro - δ)| := not_lt.mpr hcomp
    constructor
    · intro h0
      rw [contactPressure, if_neg h1, if_neg h2, if_neg h3, if_neg h4,
        if_neg h5, if_neg h6, if_neg h7, if_pos h0]
    · intro h0
      rw [contactPressure, if_neg h1, if_neg h2, if_neg h3, if_neg h4,
        if_neg h5, if_neg h6, if_neg h7, if_neg h0]

/-- Witness for C4 at barrel (10, 20), trunnion (19.9, 30), both with
E = 200000 and nu = 3/10, and interference 1/10. -/
theorem contactPressure_spec_witness :
    contactPressure ⟨10, 20, 200000, 3 / 10⟩ ⟨199 / 10, 30, 200000, 3 / 10⟩ (1 / 10) =
      .ok ((1 / 10) / (compliance 10 20 200000 (3 / 10) +
        compliance (199 / 10) 30 200000 (3 / 10))) :=
  ((contactPressure_spec ⟨10, 20, 200000, 3 / 10⟩ ⟨199 / 10, 30, 200000, 3 / 10⟩ (1 / 10)
    (by norm_num) (by norm_num) (by norm_num) (by norm_num) (by norm_num)
    (by norm_num) (by norm_num) (by norm_num) (by norm_num) (by norm_num)).2
    (by norm_num)).2 (by norm_num)

/-- C10: `contactPressure` performs no positivity check on the trunnion
inner radius: at barrel (1, 2), trunnion (−1/2, 3) (reachable because the
interference 5/2 exceeds the barrel outer radius, forcing
trunnion.ri = barrel.ro − interference = −1/2 ≤ 0), it returns a numeric
value, while `validateGeometry` rejects the same input with the trunnion
inner radius message. -/
theorem contactPressure_missing_trunnion_check :
    ((-1 : ℚ) / 2 ≤ 0) ∧
    (∃ p, contactPressure ⟨1, 2, 200000, 3 / 10⟩ ⟨-1 / 2, 3, 200000, 3 / 10⟩ (5 / 2) = .ok p) ∧
    validateGeometry ⟨1, 2, 200000, 3 / 10⟩ ⟨-1 / 2, 3, 200000, 3 / 10⟩ (5 / 2) =
      .error (.invalidGeometry "Trunnion inner radius must be positive") := by
  refine ⟨by norm_num, ⟨(5 / 2) / (compliance 1 2 200000 (3 / 10) +
    compliance (-1 / 2) 3 200000 (3 / 10)), ?_⟩, ?_⟩
  · rw [contactPressure]
    norm_num
  · rw [validateGeometry]
    norm_num

lemma exceptBind_ok {α β : Type} {x : Except CalcError α} {f : α → Except CalcError β}
    {v : β} (h : (x >>= f) = .ok v) : ∃ a, x = .ok a ∧ f a = .ok v := by
  cases x with
  | error e =>
    exact absurd h (by simp [Bind.bind, Except.bind])
  | ok a =>
    refine ⟨a, rfl, ?_⟩
    simpa [Bind.bind, Except.bind] using h

lemma lame_ok_inv {ri ro p_i p_o : ℚ} {c : LameCoeffs}
    (h : lameCoefficients ri ro p_i p_o = .ok c) :
    0 < ri ∧ ri < ro ∧ 0 ≤ p_i ∧ 0 ≤ p_o := by
  rw [lameCoefficients] at h
  split_ifs at h with h1 h2 h3
  push_neg at h1 h2 h3
  exact ⟨h1, h2, h3.1, h3.2⟩

lemma lame_zero_zero {ri ro : ℚ} {c : LameCoeffs}
    (h : lameCoefficients ri ro 0 0 = .ok c) : c = ⟨0, 0⟩ := by
  rw [lameCoefficients] at h
  split_ifs at h
  simp only [Except.ok.injEq] at h
  rw [← h]
  norm_num

lemma contactPressure_ok_zero {b t : ElasticCylinder} {p : ℚ}
    (h : contactPressure b t 0 = .ok p) : p = 0 := by
  rw [contactPressure] at h
  split_ifs at h with h1 h2 h3 h4 h5 h6 h7 h8
  · simp only [Except.ok.injEq] at h
    exact h.symm
  · exact absurd rfl h8

/-- C5: in a compound analysis with zero interference (trunnion bore flush
with the barrel outer surface), the combined barrel stress field equals the
single-cylinder Lamé solution of the barrel alone under the same operating
and external pressures, at every radius of the barrel. -/
theorem compound_zero_interference_reduction (b t : ElasticCylinder)
    (opP extP Sy Su ax : ℚ) (res : CompoundAnalysis) (r : ℚ)
    (hres : analyzeCompoundCylinder b t 0 opP extP Sy Su ax = .ok res)
    (hr1 : b.ri ≤ r) (hr2 : r ≤ b.ro) :
    ∃ c s, lameCoefficients b.ri b.ro opP extP = .ok c ∧
      stresses r c.A c.B = .ok s ∧ res.barrelCombined r = .ok s := by
  rw [analyzeCompoundCylinder] at hres
  obtain ⟨p_c, hpc, hres⟩ := exceptBind_ok hres
  obtain ⟨bPre, hbPre, hres⟩ := exceptBind_ok hres
  obtain ⟨tPre, htPre, hres⟩ := exceptBind_ok hres
  obtain ⟨bOp, hbOp, hres⟩ := exceptBind_ok hres
  obtain ⟨tOp, htOp, hres⟩ := exceptBind_ok hres
  obtain ⟨sBI, hsBI, hres⟩ := exceptBind_ok hres
  obtain ⟨aBI, haBI, hres⟩ := exceptBind_ok hres
  obtain ⟨sBF, hsBF, hres⟩ := exceptBind_ok hres
  obtain ⟨aBF, haBF, hres⟩ := exceptBind_ok hres
  obtain ⟨sTI, hsTI, hres⟩ := exceptBind_ok hres
  obtain ⟨aTI, haTI, hres⟩ := exceptBind_ok hres
  obtain ⟨sTO, hsTO, hres⟩ := exceptBind_ok hres
  obtain ⟨aTO, haTO, hres⟩ := exceptBind_ok hres
  simp only [pure, Except.pure, Except.ok.injEq] at hres
  have hpc0 : p_c = 0 := contactPressure_ok_zero hpc
  rw [hpc0] at hbPre
  have hbPre0 : bPre = ⟨0, 0⟩ := lame_zero_zero hbPre
  obtain ⟨hri, hriro, _, _⟩ := lame_ok_inv hbOp
  have hr0 : 0 < r := lt_of_lt_of_le hri hr1
  have hcomb : res.barrelCombined = superimposedStresses bPre bOp := by
    rw [← hres]
  have hs2 : stresses r bOp.A bOp.B =
      .ok ⟨bOp.A - bOp.B / (r * r), bOp.A + bOp.B / (r * r)⟩ := by
    rw [stresses, if_neg (not_le.mpr hr0)]
  refine ⟨bOp, ⟨bOp.A - bOp.B / (r * r), bOp.A + bOp.B / (r * r)⟩, hbOp, hs2, ?_⟩
  rw [hcomb, superimposedStresses, hbPre0]
  have hz : stresses r (0 : ℚ) (0 : ℚ) = .ok ⟨0, 0⟩ := by
    rw [stresses, if_neg (not_le.mpr hr0)]
    norm_num
  rw [hz]
  simp only [Bind.bind, Except.bind]
  rw [hs2]
  simp only [pure, Except.pure, Except.ok.injEq]
  norm_num

lemma superimposedStresses_ok (pre op : LameCoeffs) (r : ℚ) (hr : 0 < r) :
    ∃ s, superimposedStresses pre op r = .ok s := by
  refine ⟨⟨(pre.A - pre.B / (r * r)) + (op.A - op.B / (r * r)),
    (pre.A + pre.B / (r * r)) + (op.A + op.B / (r * r))⟩, ?_⟩
  rw [superimposedStresses]
  simp only [stresses, if_neg (not_le.mpr hr), Bind.bind, Except.bind, pure, Except.pure]

lemma safetyFactors_ok (vm Sy Su : ℝ) (h1 : 0 < Sy) (h2 : Sy ≤ Su) (h3 : 0 ≤ vm) :
    ∃ sf, safetyFactors vm Sy Su = .ok sf := by
  have hng : ¬ (Sy ≤ 0 ∨ Su ≤ 0) := by
    push_neg
    exact ⟨h1, lt_of_lt_of_le h1 h2⟩
  rw [safetyFactors, if_neg hng, if_neg (not_lt.mpr h2), if_neg (not_lt.mpr h3)]
  by_cases h : vm = 0
  · rw [if_pos h]
    exact ⟨_, rfl⟩
  · rw [if_neg h]
    exact ⟨_, rfl⟩

lemma analyzeLocation_ok (s : StressState) (Sy Su ax : ℚ) (h1 : 0 < Sy) (h2 : Sy ≤ Su) :
    ∃ a, analyzeLocation s Sy Su ax = .ok a := by
  obtain ⟨sf, hsf⟩ := safetyFactors_ok
    (vonMises (s.sigma_r : ℝ) (s.sigma_theta : ℝ) (ax : ℝ)) (Sy : ℝ) (Su : ℝ)
    (by exact_mod_cast h1) (by exact_mod_cast h2) (Real.sqrt_nonneg _)
  refine ⟨⟨s, vonMises (s.sigma_r : ℝ) (s.sigma_theta : ℝ) (ax : ℝ), sf⟩, ?_⟩
  rw [analyzeLocation, hsf]
  simp only [Bind.bind, Except.bind, pure, Except.pure]

lemma compound_zero_ok_concrete :
    ∃ res, analyzeCompoundCylinder ⟨1, 2, 200000, 0⟩ ⟨2, 3, 200000, 0⟩ 0 5 0 500 600 0 =
      .ok res := by
  have hpc : contactPressure ⟨1, 2, 200000, 0⟩ ⟨2, 3, 200000, 0⟩ 0 = .ok 0 := by
    rw [contactPressure]
    norm_num
  have hbPre : calculatePreloadBarrel ⟨1, 2, 200000, 0⟩ 0 = .ok ⟨0, 0⟩ := by
    rw [calculatePreloadBarrel, lameCoefficients]
    norm_num
  have htPre : calculatePreloadTrunnion ⟨2, 3, 200000, 0⟩ 0 = .ok ⟨0, 0⟩ := by
    rw [calculatePreloadTrunnion, lameCoefficients]
    norm_num
  have hbOp : calculateOperatingBarrel ⟨1, 2, 200000, 0⟩ 5 0 = .ok ⟨5 / 3, 20 / 3⟩ := by
    rw [calculateOperatingBarrel, lameCoefficients]
    norm_num
  have htOp : calculateOperatingTrunnion ⟨2, 3, 200000, 0⟩ 0 = .ok ⟨0, 0⟩ := by
    rw [calculateOperatingTrunnion, lameCoefficients]
    norm_num
  obtain ⟨sBI, hsBI⟩ := superimposedStresses_ok ⟨0, 0⟩ ⟨5 / 3, 20 / 3⟩
    ((2 : ℚ) * (999 / 1000)) (by norm_num)
  obtain ⟨aBI, haBI⟩ := analyzeLocation_ok sBI 500 600 0 (by norm_num) (by norm_num)
  obtain ⟨sBF, hsBF⟩ := superimposedStresses_ok ⟨0, 0⟩ ⟨5 / 3, 20 / 3⟩ 2 (by norm_num)
  obtain ⟨aBF, haBF⟩ := analyzeLocation_ok sBF 500 600 0 (by norm_num) (by norm_num)
  obtain ⟨sTI, hsTI⟩ := superimposedStresses_ok ⟨0, 0⟩ ⟨0, 0⟩ 2 (by norm_num)
  obtain ⟨aTI, haTI⟩ := analyzeLocation_ok sTI 500 600 0 (by norm_num) (by norm_num)
  obtain ⟨sTO, hsTO⟩ := superimposedStresses_ok ⟨0, 0⟩ ⟨0, 0⟩ ((2 : ℚ) * (3 / 2)) (by norm_num)
  obtain ⟨aTO, haTO⟩ := analyzeLocation_ok sTO 500 600 0 (by norm_num) (by norm_num)
  refine ⟨⟨0, ⟨0, 0⟩, ⟨0, 0⟩, ⟨5 / 3, 20 / 3⟩, ⟨0, 0⟩,
    superimposedStresses ⟨0, 0⟩ ⟨5 / 3, 20 / 3⟩, superimposedStresses ⟨0, 0⟩ ⟨0, 0⟩,
    2, aBI, aBF, aTI, aTO⟩, ?_⟩
  rw [analyzeCompoundCylinder]
  simp only [hpc, hbPre, htPre, hbOp, htOp, hsBI, haBI, hsBF, haBF, hsTI, haTI,
    hsTO, haTO, Bind.bind, Except.bind, pure, Except.pure]

/-- Witness for C5 at a concrete zero-interference compound system
(barrel (1, 2), trunnion (2, 3), operating pressure 5) and the barrel
radius r = 3/2. -/
theorem compound_zero_interference_reduction_witness :
    ∃ res, analyzeCompoundCylinder ⟨1, 2, 200000, 0⟩ ⟨2, 3, 200000, 0⟩ 0 5 0 500 600 0 =
        .ok res ∧
      ∃ c s, lameCoefficients 1 2 5 0 = .ok c ∧ stresses (3 / 2) c.A c.B = .ok s ∧
        res.barrelCombined (3 / 2) = .ok s := by
  obtain ⟨res, hres⟩ := compound_zero_ok_concrete
  exact ⟨res, hres, compound_zero_interference_reduction _ _ _ _ _ _ _ res (3 / 2) hres
    (by norm_num) (by norm_num)⟩

lemma bisect_total (f : ℚ → Option ℝ) (tol : ℚ)
    (hf : ∀ p : ℚ, 0 ≤ p → ∃ v, f p = some v) :
    ∀ (n : ℕ) (a b : ℚ) (fl : Option ℝ), 0 ≤ a → a ≤ b → b - a < tol * 2 ^ n →
      ∃ q, bisectLoop f tol (n + 1) a b fl = .ok q := by
  intro n
  induction n with
  | zero =>
    intro a b fl ha hab hw
    obtain ⟨v, hv⟩ := hf ((a + b) / 2) (by linarith)
    refine ⟨(a + b) / 2, ?_⟩
    rw [bisectLoop, hv]
    dsimp only
    have hw1 : b - a < tol := by
      rw [pow_zero, mul_one] at hw
      exact hw
    rw [if_pos (Or.inr hw1)]
  | succ n ih =>
    intro a b fl ha hab hw
    obtain ⟨v, hv⟩ := hf ((a + b) / 2) (by linarith)
    have hw2 : b - a < tol * 2 ^ n * 2 := by
      rw [pow_succ] at hw
      linarith
    by_cases hc : |v| < (tol : ℝ) ∨ b - a < tol
    · refine ⟨(a + b) / 2, ?_⟩
      rw [bisectLoop, hv]
      dsimp only
      rw [if_pos hc]
    · by_cases hs : optProdNeg v fl
      · obtain ⟨q, hq⟩ := ih a ((a + b) / 2) fl ha (by linarith) (by linarith)
        refine ⟨q, ?_⟩
        rw [bisectLoop, hv]
        dsimp only
        rw [if_neg hc, if_pos hs]
        exact hq
      · obtain ⟨q, hq⟩ := ih ((a + b) / 2) b (some v) (by linarith) (by linarith) (by linarith)
        refine ⟨q, ?_⟩
        rw [bisectLoop, hv]
        dsimp only
        rw [if_neg hc, if_neg hs]
        exact hq

lemma burst_ok_100 (ri ro Sy p_o tol : ℚ)
    (h1 : 0 < ri) (h2 : ri < ro) (h3 : 0 < Sy) (h4 : 0 ≤ p_o)
    (hw : 10 * Sy < tol * 2 ^ 99) :
    ∃ q, burstPressureEstimate ri ro Sy p_o 100 tol = .ok q := by
  have hne := not_optNeg_objective_ten ri ro Sy p_o h1 h2 h3
  have hf : ∀ p : ℚ, 0 ≤ p → ∃ v, objective ri ro Sy p_o p = some v := by
    intro p hp
    obtain ⟨st, hst⟩ := objective_eval ri ro Sy p_o p h1 h2 h4 hp
    exact ⟨_, hst⟩
  obtain ⟨q, hq⟩ := bisect_total (objective ri ro Sy p_o) tol hf 99 0 (10 * Sy)
    (objective ri ro Sy p_o 0) (le_refl 0) (by nlinarith) (by linarith)
  refine ⟨q, ?_⟩
  rw [burstPressureEstimate, if_neg (not_le.mpr h1), if_neg (not_le.mpr h2),
    if_neg (not_le.mpr h3)]
  dsimp only
  rw [expandLoop_of_not_neg _ _ _ _ hne]
  dsimp only
  rw [if_neg hne]
  exact hq

lemma lame_ok_val {ri ro p_i p_o : ℚ} {c : LameCoeffs}
    (h : lameCoefficients ri ro p_i p_o = .ok c) :
    c = ⟨(p_i * (ri * ri) - p_o * (ro * ro)) / (ro * ro - ri * ri),
      (p_i - p_o) * (ri * ri) * (ro * ro) / (ro * ro - ri * ri)⟩ := by
  rw [lameCoefficients] at h
  split_ifs at h
  simp only [Except.ok.injEq] at h
  exact h.symm

lemma stresses_ok_val {r A B : ℚ} {s : StressState} (h : stresses r A B = .ok s) :
    s = ⟨A - B / (r * r), A + B / (r * r)⟩ := by
  rw [stresses] at h
  split_ifs at h
  simp only [Except.ok.injEq] at h
  exact h.symm

lemma lame_inner_radial (ri ro p_i p_o : ℚ) (h1 : 0 < ri) (h2 : ri < ro) :
    (p_i * (ri * ri) - p_o * (ro * ro)) / (ro * ro - ri * ri) -
      (p_i - p_o) * (ri * ri) * (ro * ro) / (ro * ro - ri * ri) / (ri * ri) = -p_i := by
  have hd : ro * ro - ri * ri ≠ 0 := by nlinarith
  have hri2 : ri * ri ≠ 0 := by positivity
  field_simp
  ring

lemma safetyFactors_ok_inv {vm Sy Su : ℝ} {sf : SafetyFactors}
    (h : safetyFactors vm Sy Su = .ok sf) :
    0 < Sy ∧ 0 < Su ∧ Sy ≤ Su ∧ 0 ≤ vm ∧
    (vm = 0 → sf = ⟨⊤, ⊤⟩) ∧
    (vm ≠ 0 → sf = ⟨((Sy / vm : ℝ) : WithTop ℝ), ((Su / vm : ℝ) : WithTop ℝ)⟩) := by
  rw [safetyFactors] at h
  split_ifs at h with h1 h2 h3 h4
  · push_neg at h1
    simp only [Except.ok.injEq] at h
    exact ⟨h1.1, h1.2, not_lt.mp h2, not_lt.mp h3, fun _ => h.symm,
      fun hne => absurd h4 hne⟩
  · push_neg at h1
    simp only [Except.ok.injEq] at h
    exact ⟨h1.1, h1.2, not_lt.mp h2, not_lt.mp h3, fun hz => absurd hz h4,
      fun _ => h.symm⟩

lemma analyzeCircle_ok_inv {ri ro p_i p_o Sy Su ax : ℚ} {a : CircleAnalysis}
    (h : analyzeCircle ri ro p_i p_o Sy Su ax = .ok a) :
    0 < ri ∧ ri < ro ∧ 0 ≤ p_i ∧ 0 ≤ p_o ∧ 0 < Sy ∧ Sy ≤ Su ∧
    a.SF_y = (if vonMises ((-p_i : ℚ) : ℝ) ((innerHoop ri ro p_i p_o : ℚ) : ℝ) (ax : ℝ) = 0
      then (⊤ : WithTop ℝ)
      else (((Sy : ℝ) / vonMises ((-p_i : ℚ) : ℝ)
        ((innerHoop ri ro p_i p_o : ℚ) : ℝ) (ax : ℝ) : ℝ) : WithTop ℝ)) := by
  rw [analyzeCircle] at h
  obtain ⟨c, hc, h⟩ := exceptBind_ok h
  obtain ⟨si, hsi, h⟩ := exceptBind_ok h
  obtain ⟨so, hso, h⟩ := exceptBind_ok h
  obtain ⟨sf, hsf, h⟩ := exceptBind_ok h
  obtain ⟨q, hq, h⟩ := exceptBind_ok h
  simp only [pure, Except.pure, Except.ok.injEq] at h
  obtain ⟨h1, h2, h3, h4⟩ := lame_ok_inv hc
  have hcval := lame_ok_val hc
  have hsival := stresses_ok_val hsi
  rw [hcval] at hsival
  have hsr : si.sigma_r = -p_i := by
    rw [hsival]
    exact lame_inner_radial ri ro p_i p_o h1 h2
  have hst : si.sigma_theta = innerHoop ri ro p_i p_o := by
    rw [hsival]
    rfl
  rw [hsr, hst] at hsf
  obtain ⟨hSy, hSu, hyu, hvm0, hzf, hnzf⟩ := safetyFactors_ok_inv hsf
  have hSyq : 0 < Sy := by exact_mod_cast hSy
  have hyuq : Sy ≤ Su := by exact_mod_cast hyu
  refine ⟨h1, h2, h3, h4, hSyq, hyuq, ?_⟩
  rw [← h]
  by_cases hz : vonMises ((-p_i : ℚ) : ℝ) ((innerHoop ri ro p_i p_o : ℚ) : ℝ) (ax : ℝ) = 0
  · rw [if_pos hz, hzf hz]
  · rw [if_neg hz, hnzf hz]

lemma analyzeCircle_ok (ri ro p_i p_o Sy Su ax : ℚ)
    (h1 : 0 < ri) (h2 : ri < ro) (hpi : 0 ≤ p_i) (hpo : 0 ≤ p_o)
    (hsy : 0 < Sy) (hyu : Sy ≤ Su)
    (hw : 10 * Sy < (1 / 1000000000 : ℚ) * 2 ^ 99) :
    ∃ a, analyzeCircle ri ro p_i p_o Sy Su ax = .ok a := by
  obtain ⟨c, si, so, hc, hsi, hso, hbc1, hbc2⟩ :=
    lame_pipeline_boundary ri ro p_i p_o h1 h2 hpi hpo
  obtain ⟨sf, hsf⟩ := safetyFactors_ok
    (vonMises (si.sigma_r : ℝ) (si.sigma_theta : ℝ) (ax : ℝ)) (Sy : ℝ) (Su : ℝ)
    (by exact_mod_cast hsy) (by exact_mod_cast hyu) (Real.sqrt_nonneg _)
  obtain ⟨q, hq⟩ := burst_ok_100 ri ro Sy p_o (1 / 1000000000) h1 h2 hsy hpo hw
  refine ⟨⟨c, si, so, vonMises (si.sigma_r : ℝ) (si.sigma_theta : ℝ) (ax : ℝ),
    vonMises (so.sigma_r : ℝ) (so.sigma_theta : ℝ) (ax : ℝ), sf.SF_y, sf.SF_u, q⟩, ?_⟩
  rw [analyzeCircle]
  simp only [hc, hsi, hso, hsf, hq, Bind.bind, Except.bind, pure, Except.pure]

lemma innerHoop_zero_po (ri ro p : ℚ) (h1 : 0 < ri) (h2 : ri < ro) :
    innerHoop ri ro p 0 = p * ((ri * ri + ro * ro) / (ro * ro - ri * ri)) := by
  have hd : ro * ro - ri * ri ≠ 0 := by nlinarith
  have hri2 : ri * ri ≠ 0 := by positivity
  rw [innerHoop]
  field_simp
  ring

lemma vonMisesSq_cast (p th : ℚ) :
    vonMisesSq ((-p : ℚ) : ℝ) ((th : ℚ) : ℝ) ((0 : ℚ) : ℝ) =
      ((th * th + p * p + th * p : ℚ) : ℝ) := by
  rw [vonMisesSq]
  push_cast
  ring

lemma alpha_mono (a b c d : ℚ) (ha : 0 < a) (hcd : c < d) (hac : a ≤ c) (hdb : d ≤ b) :
    (a * a + b * b) / (b * b - a * a) ≤ (c * c + d * d) / (d * d - c * c) := by
  have hc : 0 < c := lt_of_lt_of_le ha hac
  have hd : 0 < d := lt_trans hc hcd
  have hb : 0 < b := lt_of_lt_of_le hd hdb
  have hab : a < b := lt_of_le_of_lt hac (lt_of_lt_of_le hcd hdb)
  have h1 : 0 < d * d - c * c := by nlinarith
  have h2 : 0 < b * b - a * a := by nlinarith
  rw [div_le_div_iff h2 h1]
  have had : a * d ≤ c * b := mul_le_mul hac hdb (le_of_lt hd) (le_of_lt hc)
  have hsq : a * d * (a * d) ≤ c * b * (c * b) :=
    mul_self_le_mul_self (by positivity) had
  nlinarith [hsq]

lemma rad_mono (p q ap aq : ℚ) (hp : 0 < p) (hpq : p ≤ q) (hap : 0 < ap) (haa : ap ≤ aq) :
    (p * ap) * (p * ap) + p * p + (p * ap) * p ≤
      (q * aq) * (q * aq) + q * q + (q * aq) * q := by
  have h1 : p * p ≤ q * q := mul_self_le_mul_self (le_of_lt hp) hpq
  have h2 : ap * ap + ap + 1 ≤ aq * aq + aq + 1 := by nlinarith
  have h3 : (p * p) * (ap * ap + ap + 1) ≤ (q * q) * (aq * aq + aq + 1) :=
    mul_le_mul h1 h2 (by nlinarith) (mul_self_nonneg q)
  nlinarith [h3]

lemma rad_pos (p ap : ℚ) (hp : 0 < p) (hap : 0 < ap) :
    0 < (p * ap) * (p * ap) + p * p + (p * ap) * p := by
  nlinarith

lemma performWCA_zero_tol_ok (nri nro p_nom factor Sy Su extP ax : ℚ)
    (h1 : 0 < nri) (h2 : nri < nro)
    (hn : 0 ≤ p_nom) (hwp : 0 ≤ p_nom + p_nom * factor) (hbp : 0 ≤ p_nom - p_nom * factor)
    (hext : 0 ≤ extP) (hsy : 0 < Sy) (hyu : Sy ≤ Su)
    (hconv : 10 * Sy < (1 / 1000000000 : ℚ) * 2 ^ 99) :
    ∃ aN aW aB, performWorstCaseAnalysis nri nro p_nom ⟨0, 0, 0, 0⟩ factor Sy Su extP ax =
      .ok ⟨getCustomTolerances ⟨0, 0, 0, 0⟩,
        ⟨⟨nri, nro, nro - nri⟩, ⟨nri, nro, nro - nri⟩, ⟨nri, nro, nro - nri⟩⟩,
        applyPressureTolerance p_nom factor, aN, aW, aB⟩ ∧
      analyzeCircle nri nro p_nom extP Sy Su ax = .ok aN ∧
      analyzeCircle nri nro (p_nom + p_nom * factor) extP Sy Su ax = .ok aW ∧
      analyzeCircle nri nro (p_nom - p_nom * factor) extP Sy Su ax = .ok aB := by
  have hdims : calculateWorstCaseDimensions nri nro (getCustomTolerances ⟨0, 0, 0, 0⟩) =
      .ok ⟨⟨nri, nro, nro - nri⟩, ⟨nri, nro, nro - nri⟩, ⟨nri, nro, nro - nri⟩⟩ := by
    rw [calculateWorstCaseDimensions, getCustomTolerances]
    have hcond : ¬ (nro + -|(0 : ℚ)| / 1000 ≤ nri + (0 : ℚ) / 1000) := by
      simpa using not_le.mpr h2
    rw [if_neg hcond]
    norm_num
  obtain ⟨aN, haN⟩ := analyzeCircle_ok nri nro p_nom extP Sy Su ax h1 h2 hn hext hsy hyu hconv
  obtain ⟨aW, haW⟩ := analyzeCircle_ok nri nro (p_nom + p_nom * factor) extP Sy Su ax
    h1 h2 hwp hext hsy hyu hconv
  obtain ⟨aB, haB⟩ := analyzeCircle_ok nri nro (p_nom - p_nom * factor) extP Sy Su ax
    h1 h2 hbp hext hsy hyu hconv
  refine ⟨aN, aW, aB, ?_, haN, haW, haB⟩
  rw [performWorstCaseAnalysis]
  simp only [hdims, Bind.bind, Except.bind]
  dsimp only [applyPressureTolerance]
  simp only [haN, haW, haB, pure, Except.pure]

/-- C8 counterexample: for nominal geometry (10, 20), nominal pressure 1,
all-zero custom tolerances, pressure tolerance factor 1/20, Sy = 500,
Su = 600 and external pressure 100, the worst-case analysis completes
without failure but its worst-case yield safety factor is strictly greater
than the nominal one (the dominant external pressure makes the bore Von
Mises stress decrease as internal pressure rises). -/
theorem tolerance_ordering_counterexample :
    ∃ res, performWorstCaseAnalysis 10 20 1 ⟨0, 0, 0, 0⟩ (1 / 20) 500 600 100 0 = .ok res ∧
      ¬ (res.worstCaseAnalysis.SF_y ≤ res.nominalAnalysis.SF_y) := by
  obtain ⟨aN, aW, aB, hres, haN, haW, haB⟩ :=
    performWCA_zero_tol_ok 10 20 1 (1 / 20) 500 600 100 0
      (by norm_num) (by norm_num) (by norm_num) (by norm_num) (by norm_num)
      (by norm_num) (by norm_num) (by norm_num) (by norm_num)
  refine ⟨_, hres, ?_⟩
  dsimp only
  have hN := (analyzeCircle_ok_inv haN).2.2.2.2.2.2
  have hW := (analyzeCircle_ok_inv haW).2.2.2.2.2.2
  have hhoopN : innerHoop 10 20 1 100 = -265 := by
    rw [innerHoop]
    norm_num
  have hhoopW : innerHoop 10 20 (1 + 1 * (1 / 20)) 100 = -3179 / 12 := by
    rw [innerHoop]
    norm_num
  rw [hhoopN] at hN
  rw [hhoopW] at hW
  have hradN : vonMisesSq ((-1 : ℚ) : ℝ) ((-265 : ℚ) : ℝ) ((0 : ℚ) : ℝ) =
      ((69961 : ℚ) : ℝ) := by
    rw [vonMisesSq_cast]
    norm_num
  have hradW : vonMisesSq ((-(1 + 1 * (1 / 20)) : ℚ) : ℝ) ((-3179 / 12 : ℚ) : ℝ)
      ((0 : ℚ) : ℝ) = ((251653609 / 3600 : ℚ) : ℝ) := by
    rw [vonMisesSq_cast]
    norm_num
  have hvmN : vonMises ((-1 : ℚ) : ℝ) ((-265 : ℚ) : ℝ) ((0 : ℚ) : ℝ) =
      Real.sqrt ((69961 : ℚ) : ℝ) := by
    rw [vonMises, hradN]
  have hvmW : vonMises ((-(1 + 1 * (1 / 20)) : ℚ) : ℝ) ((-3179 / 12 : ℚ) : ℝ)
      ((0 : ℚ) : ℝ) = Real.sqrt ((251653609 / 3600 : ℚ) : ℝ) := by
    rw [vonMises, hradW]
  have hposN : (0 : ℝ) < Real.sqrt ((69961 : ℚ) : ℝ) := by
    rw [Real.sqrt_pos]
    norm_num
  have hposW : (0 : ℝ) < Real.sqrt ((251653609 / 3600 : ℚ) : ℝ) := by
    rw [Real.sqrt_pos]
    norm_num
  rw [hvmN, if_neg (ne_of_gt hposN)] at hN
  rw [hvmW, if_neg (ne_of_gt hposW)] at hW
  rw [hN, hW]
  rw [WithTop.coe_le_coe]
  apply not_le.mpr
  have hlt : Real.sqrt ((251653609 / 3600 : ℚ) : ℝ) < Real.sqrt ((69961 : ℚ) : ℝ) := by
    apply Real.sqrt_lt_sqrt
    · norm_num
    · norm_num
  exact div_lt_div_of_pos_left (by norm_num) hposW hlt

set_option maxHeartbeats 2000000 in
/-- C8 amended: for every worst-case analysis over custom tolerances with
non-negative plus tolerances that completes without failure, with zero
external pressure and zero axial stress, positive nominal pressure and a
non-negative pressure tolerance factor, the wall thicknesses are ordered
worst ≤ nominal ≤ best and the worst-case yield safety factor is no
greater than the nominal one. -/
theorem tolerance_ordering_amended (nri nro p_nom : ℚ) (ct : CustomTolerances)
    (factor Sy Su : ℚ) (res : WCAResult)
    (hbp : 0 ≤ ct.bore_plus) (hsp : 0 ≤ ct.shaft_plus)
    (hp : 0 < p_nom) (hfac : 0 ≤ factor)
    (hres : performWorstCaseAnalysis nri nro p_nom ct factor Sy Su 0 0 = .ok res) :
    res.dimensions.worstCase.wallThickness ≤ res.dimensions.nominal.wallThickness ∧
    res.dimensions.nominal.wallThickness ≤ res.dimensions.bestCase.wallThickness ∧
    res.worstCaseAnalysis.SF_y ≤ res.nominalAnalysis.SF_y := by
  rw [performWorstCaseAnalysis] at hres
  obtain ⟨dims, hdims, hres⟩ := exceptBind_ok hres
  obtain ⟨aN, haN, hres⟩ := exceptBind_ok hres
  obtain ⟨aW, haW, hres⟩ := exceptBind_ok hres
  obtain ⟨aB, haB, hres⟩ := exceptBind_ok hres
  simp only [pure, Except.pure, Except.ok.injEq] at hres
  rw [calculateWorstCaseDimensions, getCustomTolerances] at hdims
  by_cases hcond : nro + -|ct.shaft_minus| / 1000 ≤ nri + ct.bore_plus / 1000
  · rw [if_pos hcond] at hdims
    exact absurd hdims (by simp)
  rw [if_neg hcond] at hdims
  simp only [Except.ok.injEq] at hdims
  subst hres
  subst hdims
  dsimp only [applyPressureTolerance] at haN haW
  dsimp only at haN haW ⊢
  refine ⟨by linarith [abs_nonneg ct.shaft_minus, hbp],
    by linarith [abs_nonneg ct.bore_minus, hsp], ?_⟩
  obtain ⟨hriN, hriroN, hpiN, hpoN, hSy, hyu, hSFN⟩ := analyzeCircle_ok_inv haN
  obtain ⟨hriW, hriroW, hpiW, hpoW, hSy2, hyu2, hSFW⟩ := analyzeCircle_ok_inv haW
  rw [innerHoop_zero_po nri nro p_nom hriN hriroN] at hSFN
  rw [innerHoop_zero_po (nri + ct.bore_plus / 1000) (nro + -|ct.shaft_minus| / 1000)
    (p_nom + p_nom * factor) hriW hriroW] at hSFW
  set riW := nri + ct.bore_plus / 1000 with hriWdef
  set roW := nro + -|ct.shaft_minus| / 1000 with hroWdef
  set pW := p_nom + p_nom * factor with hpWdef
  set alN := (nri * nri + nro * nro) / (nro * nro - nri * nri) with halNdef
  set alW := (riW * riW + roW * roW) / (roW * roW - riW * riW) with halWdef
  have halN : 0 < alN := by
    rw [halNdef]
    apply div_pos
    · nlinarith
    · nlinarith
  have hpWpos : 0 < pW := by
    rw [hpWdef]
    nlinarith [mul_nonneg (le_of_lt hp) hfac]
  have halW : 0 < alW := by
    rw [halWdef]
    apply div_pos
    · nlinarith
    · nlinarith
  have hmono : alN ≤ alW := by
    rw [halNdef, halWdef]
    exact alpha_mono nri nro riW roW hriN hriroW
      (by rw [hriWdef]; linarith) (by rw [hroWdef]; linarith [abs_nonneg ct.shaft_minus])
  have hple : p_nom ≤ pW := by
    rw [hpWdef]
    nlinarith [mul_nonneg (le_of_lt hp) hfac]
  have hradmono := rad_mono p_nom pW alN alW hp hple halN hmono
  have hradNpos := rad_pos p_nom alN hp halN
  have hradWpos := rad_pos pW alW hpWpos halW
  have hvmN : vonMises ((-p_nom : ℚ) : ℝ) ((p_nom * alN : ℚ) : ℝ) ((0 : ℚ) : ℝ) =
      Real.sqrt (((p_nom * alN) * (p_nom * alN) + p_nom * p_nom +
        (p_nom * alN) * p_nom : ℚ) : ℝ) := by
    rw [vonMises, vonMisesSq_cast]
  have hvmW : vonMises ((-pW : ℚ) : ℝ) ((pW * alW : ℚ) : ℝ) ((0 : ℚ) : ℝ) =
      Real.sqrt (((pW * alW) * (pW * alW) + pW * pW + (pW * alW) * pW : ℚ) : ℝ) := by
    rw [vonMises, vonMisesSq_cast]
  have hposN : (0 : ℝ) < Real.sqrt (((p_nom * alN) * (p_nom * alN) + p_nom * p_nom +
      (p_nom * alN) * p_nom : ℚ) : ℝ) := by
    rw [Real.sqrt_pos]
    exact_mod_cast hradNpos
  have hposW : (0 : ℝ) < Real.sqrt (((pW * alW) * (pW * alW) + pW * pW +
      (pW * alW) * pW : ℚ) : ℝ) := by
    rw [Real.sqrt_pos]
    exact_mod_cast hradWpos
  rw [hvmN, if_neg (ne_of_gt hposN)] at hSFN
  rw [hvmW, if_neg (ne_of_gt hposW)] at hSFW
  rw [hSFN, hSFW, WithTop.coe_le_coe]
  apply div_le_div_of_nonneg_left _ hposN
  · apply Real.sqrt_le_sqrt
    exact_mod_cast hradmono
  · exact_mod_cast le_of_lt hSy

/-- Witness for the amended C8 at nominal geometry (10, 20), nominal
pressure 1, all-zero custom tolerances, pressure factor 1/20, Sy = 500,
Su = 600, zero external pressure and zero axial stress. -/
theorem tolerance_ordering_amended_witness :
    ∃ res, performWorstCaseAnalysis 10 20 1 ⟨0, 0, 0, 0⟩ (1 / 20) 500 600 0 0 = .ok res ∧
      (res.dimensions.worstCase.wallThickness ≤ res.dimensions.nominal.wallThickness ∧
       res.dimensions.nominal.wallThickness ≤ res.dimensions.bestCase.wallThickness ∧
       res.worstCaseAnalysis.SF_y ≤ res.nominalAnalysis.SF_y) := by
  obtain ⟨aN, aW, aB, hres, haN, haW, haB⟩ :=
    performWCA_zero_tol_ok 10 20 1 (1 / 20) 500 600 0 0
      (by norm_num) (by norm_num) (by norm_num) (by norm_num) (by norm_num)
      (by norm_num) (by norm_num) (by norm_num) (by norm_num)
  exact ⟨_, hres, tolerance_ordering_amended 10 20 1 ⟨0, 0, 0, 0⟩ (1 / 20) 500 600 _
    (by norm_num) (by norm_num) (by norm_num) (by norm_num) hres⟩
